import Mathlib

/-!
Verification of the anime-backend proxy server (src/server.js).

The development shallowly embeds the two core pieces of the server:
  * `sanitizeParams` (server.js lines 109-123): query-parameter sanitization,
    modelled on association lists of string keys and string values (a URL
    query string), producing an insertion-ordered association list of
    sanitized values;
  * `proxyToDeadAnime` (server.js lines 49-103): the bounded retry/backoff
    loop around the upstream GET, modelled as a function from an abstract
    upstream (a map from attempt index to that attempt's outcome) to a trace
    recording the number of attempts, the backoff delays and the final result;
together with the route handlers' required-parameter checks and error
envelopes (server.js lines 157-313).
-/

set_option maxRecDepth 4096

namespace AnimeBackend

/-- JavaScript truthiness of a possibly-absent query-string value:
`undefined` and the empty string are falsy, every other string is truthy
(this is the `if (params.x)` guard used throughout `sanitizeParams`). -/
def truthy : Option String → Bool
  | none => false
  | some s => s ≠ ""

/-- Look a key up in an association list (a JavaScript object's property
access `params[k]`, `undefined` when absent). -/
def jsGet (params : List (String × String)) (k : String) : Option String :=
  (params.find? (fun p => p.1 = k)).map (fun p => p.2)

/-- ECMAScript `parseInt(s)` (no explicit radix) on the decimal inputs a
query string carries: skip leading whitespace, read an optional sign, then
the longest prefix of decimal digits; `none` models `NaN` (no digits).
The hexadecimal `0x` prefix form of `parseInt` is not modelled. -/
def parseIntCore (cs : List Char) : Option Int :=
  let cs := cs.dropWhile (fun c => c.isWhitespace)
  let signAndRest : Int × List Char :=
    match cs with
    | '-' :: rest => (-1, rest)
    | '+' :: rest => (1, rest)
    | _ => (1, cs)
  let ds := signAndRest.2.takeWhile (fun c => c.isDigit)
  if ds.isEmpty then none
  else some (signAndRest.1 * (ds.foldl (fun acc c => acc * 10 + (c.toNat - 48)) (0 : Nat) : Nat))

/-- `parseInt` on a string. -/
def parseInt (s : String) : Option Int := parseIntCore s.data

/-- JavaScript `x || d` after a `parseInt`: `NaN` and `0` (and `-0`) fall
back to the default `d`. -/
def jsOrInt (x : Option Int) (d : Int) : Int :=
  match x with
  | none => d
  | some n => if n = 0 then d else n

/-- JavaScript `String.prototype.trim`: strip whitespace from both ends. -/
def jsTrim (s : String) : String :=
  ⟨((s.data.dropWhile (fun c => c.isWhitespace)).reverse.dropWhile
      (fun c => c.isWhitespace)).reverse⟩

/-- JavaScript `String.prototype.slice(0, n)`: the first `n` characters. -/
def jsSlice (s : String) (n : Nat) : String := ⟨s.data.take n⟩

/-- A sanitized value: `sanitizeParams` stores strings for `search`, `slug`
and `season_id` and numbers for the remaining fields. -/
inductive SValue where
  | str (s : String)
  | num (n : Int)
  deriving DecidableEq, Repr

/-- One `if (params.k) s.k = <string expression>` line of `sanitizeParams`:
the singleton entry when the raw value is truthy, nothing otherwise. -/
def strEntry (v : Option String) (k : String) (f : String → String) :
    List (String × SValue) :=
  match v with
  | none => []
  | some s => if s = "" then [] else [(k, SValue.str (f s))]

/-- One `if (params.k) s.k = <numeric expression>` line of `sanitizeParams`. -/
def numEntry (v : Option String) (k : String) (f : String → Int) :
    List (String × SValue) :=
  match v with
  | none => []
  | some s => if s = "" then [] else [(k, SValue.num (f s))]

/-- `sanitizeParams` (server.js lines 109-123), with the entries in the
insertion order of the source. Note the `end_ep` line applies only
`Math.min(10000, …)` with no lower clamp, unlike its siblings. -/
def sanitizeParams (params : List (String × String)) : List (String × SValue) :=
  strEntry (jsGet params "search") "search" (fun s => jsSlice (jsTrim s) 200)
    ++ strEntry (jsGet params "slug") "slug" (fun s => jsTrim s)
    ++ numEntry (jsGet params "season") "season" (fun s => max 1 (jsOrInt (parseInt s) 1))
    ++ numEntry (jsGet params "episode") "episode" (fun s => max 1 (jsOrInt (parseInt s) 1))
    ++ strEntry (jsGet params "season_id") "season_id" (fun s => s)
    ++ numEntry (jsGet params "start_ep") "start_ep" (fun s => max 1 (jsOrInt (parseInt s) 1))
    ++ numEntry (jsGet params "end_ep") "end_ep" (fun s => min 10000 (jsOrInt (parseInt s) 100))
    ++ numEntry (jsGet params "limit") "limit" (fun s => min 100 (max 1 (jsOrInt (parseInt s) 12)))
    ++ numEntry (jsGet params "page") "page" (fun s => max 1 (jsOrInt (parseInt s) 1))

/-- Look a key up in the sanitized output. -/
def sGet (s : List (String × SValue)) (k : String) : Option SValue :=
  (s.find? (fun p => p.1 = k)).map (fun p => p.2)

/-- The fixed set of recognized sanitized keys, in insertion order. -/
def recognizedKeys : List String :=
  ["search", "slug", "season", "episode", "season_id", "start_ep", "end_ep", "limit", "page"]

/-- The empty/null/undefined filter `proxyToDeadAnime` applies to the
sanitized parameters before building the upstream URL
(server.js lines 56-60); in the sanitized output only empty strings can
match the filter. -/
def cleanParams (queryParams : List (String × SValue)) : List (String × SValue) :=
  queryParams.filter (fun p =>
    match p.2 with
    | SValue.str s => s ≠ ""
    | SValue.num _ => true)

/-! ## The upstream proxy caller (server.js lines 49-103) -/

/-- What the upstream yields for one attempt: an HTTP response with a
status and a body, or a network-level failure with a message. -/
inductive UpstreamResp where
  | http (status : Nat) (body : String)
  | netErr (msg : String)
  deriving DecidableEq, Repr

/-- A thrown JavaScript error as `proxyToDeadAnime` observes it: a message,
and optionally the attached HTTP response (status and body) — present on
the code's own `Upstream API returned …` error and on an axios rejection
for a status the `validateStatus` option refused, absent on a
network-level failure. -/
structure JsError where
  message : String
  response : Option (Nat × String)
  deriving DecidableEq, Repr

/-- One attempt of the loop body (server.js lines 67-83): axios resolves
exactly when the status is below 500 (`validateStatus`), the code then
rethrows statuses in [400, 500) itself, and a resolved status below 400
returns the body. -/
def attemptStep : UpstreamResp → Sum String JsError
  | UpstreamResp.http st body =>
      if 500 ≤ st then
        Sum.inr { message := "Request failed with status code " ++ toString st
                  response := some (st, body) }
      else if 400 ≤ st then
        Sum.inr { message := "Upstream API returned " ++ toString st
                  response := some (st, body) }
      else Sum.inl body
  | UpstreamResp.netErr msg => Sum.inr { message := msg, response := none }

/-- The `if (error.response && error.response.status < 500) break` guard
(server.js line 92), as the condition to keep retrying. -/
def retryable (e : JsError) : Bool :=
  match e.response with
  | some (st, _) => decide (500 ≤ st)
  | none => true

/-- The outcome of a whole proxy call: the decoded body, or the error the
call throws. -/
inductive ProxyResult where
  | ok (body : String)
  | err (e : JsError)
  deriving DecidableEq, Repr

/-- The observable trace of one proxy call: how many attempts ran, the
backoff delays (milliseconds) slept between them, and the final outcome. -/
structure ProxyTrace where
  attempts : Nat
  delays : List Nat
  result : ProxyResult
  deriving DecidableEq, Repr

/-- `maxRetries` (server.js line 50). -/
def maxRetries : Nat := 2

/-- The retry loop `for (attempt = 0; attempt <= maxRetries; attempt++)`
(server.js lines 53-100), driven by the remaining number of loop
iterations (`maxRetries + 1 - attempt`). A success returns at once; a
non-retryable error breaks and is rethrown; a retryable error sleeps
`1000 * 2 ^ attempt` ms when iterations remain, else the loop ends and the
last error is rethrown (server.js line 102). -/
def proxyGo (upstream : Nat → UpstreamResp) :
    Nat → Nat → Nat → List Nat → Option JsError → ProxyTrace
  | 0, _attempt, nAtt, delays, lastError =>
      { attempts := nAtt, delays := delays
        result := ProxyResult.err
          (lastError.getD { message := "Request failed after all retries", response := none }) }
  | remaining + 1, attempt, nAtt, delays, _lastError =>
      match attemptStep (upstream attempt) with
      | Sum.inl body => { attempts := nAtt + 1, delays := delays, result := ProxyResult.ok body }
      | Sum.inr e =>
        if retryable e then
          match remaining with
          | 0 => { attempts := nAtt + 1, delays := delays, result := ProxyResult.err e }
          | r + 1 =>
              proxyGo upstream (r + 1) (attempt + 1) (nAtt + 1)
                (delays ++ [1000 * 2 ^ attempt]) (some e)
        else { attempts := nAtt + 1, delays := delays, result := ProxyResult.err e }

/-- `proxyToDeadAnime` (server.js lines 49-103) against an abstract
upstream giving each attempt's outcome; the URL built each iteration from
the endpoint and `cleanParams` does not influence control flow and is
modelled by `cleanParams` separately. -/
def proxyToDeadAnime (upstream : Nat → UpstreamResp) : ProxyTrace :=
  proxyGo upstream (maxRetries + 1) 0 0 [] none

/-- The error an attempt raises, as a total observer (a junk error for a
successful attempt, unused in that case). -/
def stepErrorOf (r : UpstreamResp) : JsError :=
  match attemptStep r with
  | Sum.inl _ => { message := "", response := none }
  | Sum.inr e => e

/-- Whether an attempt's upstream outcome is retryable: a network-level
failure or an HTTP status of at least 500. -/
def retryableResp : UpstreamResp → Bool
  | UpstreamResp.http st _ => decide (500 ≤ st)
  | UpstreamResp.netErr _ => true

/-! ## Route handlers and error envelopes (server.js lines 157-313) -/

/-- The field names of the `res.status(400).json({ error: … })` body a
handler sends for a missing required parameter
(server.js lines 177, 197, 224, 251): only `error`. -/
def missingParamBody : List String := ["error"]

/-- The field names of the error body a route handler's catch block sends
(server.js lines 165-169, 185-189, 212-216, 239-243, 259-263). -/
def routeErrorBody : List String := ["error", "message", "timestamp"]

/-- The field names of the 404 handler's body (server.js lines 295-302). -/
def notFoundBody : List String := ["error", "path", "method", "timestamp"]

/-- The field names of the stats handler's catch body (server.js line 288). -/
def statsErrorBody : List String := ["error", "message"]

/-- The field names of the global error handler's body
(server.js lines 305-313): `stack` is spread in exactly when
`NODE_ENV === 'development'`. -/
def globalErrorBody (dev : Bool) : List String :=
  ["error", "message"] ++ (if dev then ["stack"] else []) ++ ["timestamp"]

/-- What a handler responds with: the upstream body passed through
unmodified (`res.json(data)`), or a structured error envelope whose field
names we record. -/
inductive RespBody where
  | upstream (body : String)
  | envelope (fields : List String)
  deriving DecidableEq, Repr

/-- A handler's observable behaviour: the HTTP status, the response body,
and how many upstream attempts were made while serving the request. -/
structure HandlerResult where
  status : Nat
  body : RespBody
  upstreamAttempts : Nat
  deriving DecidableEq, Repr

/-- JavaScript `error.response?.status || 500` (the status a catch block
responds with). -/
def errStatus (e : JsError) : Nat :=
  match e.response with
  | some (st, _) => if st = 0 then 500 else st
  | none => 500

/-- The shared catch-block/response mapping of the deadanime route
handlers: 200 with the upstream body on success, `errStatus` with the
route error envelope on failure. -/
def routeRespond (tr : ProxyTrace) : HandlerResult :=
  match tr.result with
  | ProxyResult.ok body =>
      { status := 200, body := RespBody.upstream body, upstreamAttempts := tr.attempts }
  | ProxyResult.err e =>
      { status := errStatus e, body := RespBody.envelope routeErrorBody
        upstreamAttempts := tr.attempts }

/-- `GET /api/deadanime/anime` (server.js lines 174-191): 400 with the
missing-parameter body and no upstream call when `slug` is falsy,
otherwise sanitize and proxy. -/
def animeHandler (query : List (String × String)) (upstream : Nat → UpstreamResp) :
    HandlerResult :=
  if truthy (jsGet query "slug") then
    let _params := sanitizeParams query
    routeRespond (proxyToDeadAnime upstream)
  else
    { status := 400, body := RespBody.envelope missingParamBody, upstreamAttempts := 0 }

/-- `GET /api/deadanime/episode` (server.js lines 194-218); the
streaming-sources check only logs a warning and does not change the
response. -/
def episodeHandler (query : List (String × String)) (upstream : Nat → UpstreamResp) :
    HandlerResult :=
  if truthy (jsGet query "slug") then
    let _params := sanitizeParams query
    routeRespond (proxyToDeadAnime upstream)
  else
    { status := 400, body := RespBody.envelope missingParamBody, upstreamAttempts := 0 }

/-- `GET /api/deadanime/movie` (server.js lines 221-245). -/
def movieHandler (query : List (String × String)) (upstream : Nat → UpstreamResp) :
    HandlerResult :=
  if truthy (jsGet query "slug") then
    let _params := sanitizeParams query
    routeRespond (proxyToDeadAnime upstream)
  else
    { status := 400, body := RespBody.envelope missingParamBody, upstreamAttempts := 0 }

/-- `GET /api/deadanime/pack` (server.js lines 248-265): `season_id` is the
required parameter. -/
def packHandler (query : List (String × String)) (upstream : Nat → UpstreamResp) :
    HandlerResult :=
  if truthy (jsGet query "season_id") then
    let _params := sanitizeParams query
    routeRespond (proxyToDeadAnime upstream)
  else
    { status := 400, body := RespBody.envelope missingParamBody, upstreamAttempts := 0 }

/-! ## TLS verification configuration (server.js lines 2-5 and 36-40) -/

/-- The `rejectUnauthorized` option the module-level `https.Agent` is
constructed with (server.js line 37): computed from `NODE_ENV` as it is
when the module loads. -/
def agentRejectUnauthorized (envAtLoad : String) : Bool :=
  envAtLoad ≠ "development"

/-- The TLS-verification decision in force when a connection is set up:
every request uses the single module-level agent, so the decision is the
one computed at module load, whatever `NODE_ENV` holds at connection
time. -/
def connectionRejectUnauthorized (envAtLoad _envAtConnect : String) : Bool :=
  agentRejectUnauthorized envAtLoad

/-! ## Lemmas about the sanitizer -/

theorem sGet_single (k k' : String) (v : SValue) :
    sGet [(k, v)] k' = if k = k' then some v else none := by
  by_cases h : k = k' <;> simp [sGet, List.find?, h]

theorem sGet_append (xs ys : List (String × SValue)) (k : String) :
    sGet (xs ++ ys) k = (sGet xs k).or (sGet ys k) := by
  simp only [sGet, List.find?_append]
  cases xs.find? (fun p => p.1 = k) <;> simp [Option.or]

theorem sGet_strEntry_self (v : Option String) (k : String) (f : String → String) :
    sGet (strEntry v k f) k =
      match v with
      | none => none
      | some s => if s = "" then none else some (SValue.str (f s)) := by
  cases v with
  | none => rfl
  | some s => by_cases hs : s = "" <;> simp [strEntry, hs, sGet_single, sGet]

theorem sGet_numEntry_self (v : Option String) (k : String) (f : String → Int) :
    sGet (numEntry v k f) k =
      match v with
      | none => none
      | some s => if s = "" then none else some (SValue.num (f s)) := by
  cases v with
  | none => rfl
  | some s => by_cases hs : s = "" <;> simp [numEntry, hs, sGet_single, sGet]

theorem sGet_strEntry_ne (v : Option String) (k k' : String) (f : String → String)
    (h : k ≠ k') : sGet (strEntry v k f) k' = none := by
  cases v with
  | none => rfl
  | some s => by_cases hs : s = "" <;> simp [strEntry, hs, sGet_single, sGet, h]

theorem sGet_numEntry_ne (v : Option String) (k k' : String) (f : String → Int)
    (h : k ≠ k') : sGet (numEntry v k f) k' = none := by
  cases v with
  | none => rfl
  | some s => by_cases hs : s = "" <;> simp [numEntry, hs, sGet_single, sGet, h]

theorem mem_strEntry {p : String × SValue} {v : Option String} {k : String}
    {f : String → String} (h : p ∈ strEntry v k f) : p.1 = k ∧ truthy v = true := by
  cases v with
  | none => simp [strEntry] at h
  | some s =>
    by_cases hs : s = ""
    · simp [strEntry, hs] at h
    · rw [show strEntry (some s) k f = [(k, SValue.str (f s))] from by simp [strEntry, hs],
        List.mem_singleton] at h
      exact ⟨by rw [h], by simp [truthy, hs]⟩

theorem mem_numEntry {p : String × SValue} {v : Option String} {k : String}
    {f : String → Int} (h : p ∈ numEntry v k f) : p.1 = k ∧ truthy v = true := by
  cases v with
  | none => simp [numEntry] at h
  | some s =>
    by_cases hs : s = ""
    · simp [numEntry, hs] at h
    · rw [show numEntry (some s) k f = [(k, SValue.num (f s))] from by simp [numEntry, hs],
        List.mem_singleton] at h
      exact ⟨by rw [h], by simp [truthy, hs]⟩

theorem mem_sanitizeParams {p : String × SValue} {params : List (String × String)}
    (h : p ∈ sanitizeParams params) :
    p.1 ∈ recognizedKeys ∧ truthy (jsGet params p.1) = true := by
  simp only [sanitizeParams, List.mem_append] at h
  rcases h with ((((((((h | h) | h) | h) | h) | h) | h) | h) | h)
  · obtain ⟨hk, ht⟩ := mem_strEntry h
    exact ⟨by rw [hk]; decide, by rwa [hk]⟩
  · obtain ⟨hk, ht⟩ := mem_strEntry h
    exact ⟨by rw [hk]; decide, by rwa [hk]⟩
  · obtain ⟨hk, ht⟩ := mem_numEntry h
    exact ⟨by rw [hk]; decide, by rwa [hk]⟩
  · obtain ⟨hk, ht⟩ := mem_numEntry h
    exact ⟨by rw [hk]; decide, by rwa [hk]⟩
  · obtain ⟨hk, ht⟩ := mem_strEntry h
    exact ⟨by rw [hk]; decide, by rwa [hk]⟩
  · obtain ⟨hk, ht⟩ := mem_numEntry h
    exact ⟨by rw [hk]; decide, by rwa [hk]⟩
  · obtain ⟨hk, ht⟩ := mem_numEntry h
    exact ⟨by rw [hk]; decide, by rwa [hk]⟩
  · obtain ⟨hk, ht⟩ := mem_numEntry h
    exact ⟨by rw [hk]; decide, by rwa [hk]⟩
  · obtain ⟨hk, ht⟩ := mem_numEntry h
    exact ⟨by rw [hk]; decide, by rwa [hk]⟩

theorem sGet_sanitizeParams_search (params : List (String × String)) :
    sGet (sanitizeParams params) "search" =
      match jsGet params "search" with
      | none => none
      | some s => if s = "" then none else some (SValue.str (jsSlice (jsTrim s) 200)) := by
  unfold sanitizeParams
  rw [sGet_append, sGet_append, sGet_append, sGet_append, sGet_append, sGet_append,
    sGet_append, sGet_append, sGet_strEntry_self,
    sGet_strEntry_ne _ _ _ _ (by decide), sGet_numEntry_ne _ _ _ _ (by decide),
    sGet_numEntry_ne _ _ _ _ (by decide), sGet_strEntry_ne _ _ _ _ (by decide),
    sGet_numEntry_ne _ _ _ _ (by decide), sGet_numEntry_ne _ _ _ _ (by decide),
    sGet_numEntry_ne _ _ _ _ (by decide), sGet_numEntry_ne _ _ _ _ (by decide)]
  cases jsGet params "search" <;> simp

/-! ## Lemmas about the proxy caller -/

/-- Every proxy call makes at most three attempts, and the delays slept are
exactly `1000 * 2 ^ i` for the attempt indices `i` a further attempt
followed. -/
theorem proxyTrace_shape (u : Nat → UpstreamResp) :
    (proxyToDeadAnime u).attempts ≤ 3
    ∧ 1 ≤ (proxyToDeadAnime u).attempts
    ∧ (proxyToDeadAnime u).delays
        = (List.range ((proxyToDeadAnime u).attempts - 1)).map (fun i => 1000 * 2 ^ i) := by
  unfold proxyToDeadAnime maxRetries
  cases hs0 : attemptStep (u 0) with
  | inl b => simp [proxyGo, hs0]
  | inr e0 =>
    by_cases hr0 : retryable e0
    · cases hs1 : attemptStep (u 1) with
      | inl b => simp [proxyGo, hs0, hr0, hs1, List.range_succ]
      | inr e1 =>
        by_cases hr1 : retryable e1
        · cases hs2 : attemptStep (u 2) with
          | inl b => simp [proxyGo, hs0, hr0, hs1, hr1, hs2, List.range_succ]
          | inr e2 =>
            by_cases hr2 : retryable e2 <;>
              simp [proxyGo, hs0, hr0, hs1, hr1, hs2, hr2, List.range_succ]
        · simp [proxyGo, hs0, hr0, hs1, hr1, List.range_succ]
    · simp [proxyGo, hs0, hr0]

/-- A retryable upstream outcome makes the attempt throw a retryable
error, namely `stepErrorOf` of the outcome. -/
theorem stepError_of_retryable {r : UpstreamResp} (h : retryableResp r = true) :
    attemptStep r = Sum.inr (stepErrorOf r) ∧ retryable (stepErrorOf r) = true := by
  cases r with
  | http st body =>
    have h5 : 500 ≤ st := by simpa [retryableResp] using h
    simp [attemptStep, stepErrorOf, retryable, h5]
  | netErr m => simp [attemptStep, stepErrorOf, retryable]

/-! ## Claim theorems -/

/-- C1: the sanitizer does not clamp `end_ep` from below. Evaluating the
code at the failing input `end_ep = "-5"`: the sanitized `end_ep` is `-5`,
outside the claimed range `[1, 10000]`. -/
theorem c1_endEp_not_clamped_below :
    sanitizeParams [("end_ep", "-5")] = [("end_ep", SValue.num (-5))] ∧ (-5 : Int) < 1 := by
  decide

/-- C2: every proxy call makes at most 3 attempts; against an upstream
whose every attempt fails retryably (HTTP status ≥ 500 or a network-level
error) it makes exactly 3 attempts and then raises the failure of the last
attempt. -/
theorem c2_retry_exhaustion (u uBad : Nat → UpstreamResp)
    (h : ∀ i, retryableResp (uBad i) = true) :
    (proxyToDeadAnime u).attempts ≤ 3
    ∧ (proxyToDeadAnime uBad).attempts = 3
    ∧ (proxyToDeadAnime uBad).result = ProxyResult.err (stepErrorOf (uBad 2)) := by
  refine ⟨(proxyTrace_shape u).1, ?_, ?_⟩ <;>
  · obtain ⟨h0, hr0⟩ := stepError_of_retryable (h 0)
    obtain ⟨h1, hr1⟩ := stepError_of_retryable (h 1)
    obtain ⟨h2, hr2⟩ := stepError_of_retryable (h 2)
    simp [proxyToDeadAnime, maxRetries, proxyGo, h0, h1, h2, hr0, hr1, hr2]

theorem c2_retry_exhaustion_witness :
    (proxyToDeadAnime (fun _ => UpstreamResp.http 200 "ok")).attempts ≤ 3
    ∧ (proxyToDeadAnime (fun _ => UpstreamResp.http 503 "down")).attempts = 3
    ∧ (proxyToDeadAnime (fun _ => UpstreamResp.http 503 "down")).result
        = ProxyResult.err (stepErrorOf (UpstreamResp.http 503 "down")) :=
  c2_retry_exhaustion (fun _ => UpstreamResp.http 200 "ok")
    (fun _ => UpstreamResp.http 503 "down") (fun _ => rfl)

/-- C3: a 4xx upstream response fails the call immediately — exactly one
attempt — and the raised error surfaces the upstream status and body. -/
theorem c3_4xx_fails_immediately (u : Nat → UpstreamResp) (st : Nat) (body : String)
    (h0 : u 0 = UpstreamResp.http st body) (h4 : 400 ≤ st) (h5 : st < 500) :
    (proxyToDeadAnime u).attempts = 1
    ∧ (proxyToDeadAnime u).result = ProxyResult.err
        { message := "Upstream API returned " ++ toString st, response := some (st, body) } := by
  have hn5 : ¬ 500 ≤ st := by omega
  have hstep : attemptStep (u 0) = Sum.inr
      { message := "Upstream API returned " ++ toString st, response := some (st, body) } := by
    simp [h0, attemptStep, hn5, h4]
  have hret : retryable
      { message := "Upstream API returned " ++ toString st, response := some (st, body) }
        = false := by
    simp [retryable]; omega
  constructor <;> simp [proxyToDeadAnime, maxRetries, proxyGo, hstep, hret]

theorem c3_4xx_fails_immediately_witness :
    (proxyToDeadAnime (fun _ => UpstreamResp.http 404 "nf")).attempts = 1
    ∧ (proxyToDeadAnime (fun _ => UpstreamResp.http 404 "nf")).result = ProxyResult.err
        { message := "Upstream API returned " ++ toString 404, response := some (404, "nf") } :=
  c3_4xx_fails_immediately (fun _ => UpstreamResp.http 404 "nf") 404 "nf" rfl
    (by decide) (by decide)

/-- C4: against an upstream answering 503, 503, then a success status, the
call succeeds on the 3rd attempt with the decoded body, having slept
1000 ms then 2000 ms; in general the delays slept are exactly
`1000 * 2 ^ i` for the 0-based attempt indices `i` that were followed by a
retry. -/
theorem c4_backoff_delays (u : Nat → UpstreamResp) (b0 b1 body : String) (st : Nat)
    (h0 : u 0 = UpstreamResp.http 503 b0) (h1 : u 1 = UpstreamResp.http 503 b1)
    (h2 : u 2 = UpstreamResp.http st body) (hst : st < 400) :
    proxyToDeadAnime u
      = { attempts := 3, delays := [1000, 2000], result := ProxyResult.ok body }
    ∧ ∀ v : Nat → UpstreamResp,
        (proxyToDeadAnime v).delays
          = (List.range ((proxyToDeadAnime v).attempts - 1)).map (fun i => 1000 * 2 ^ i) := by
  constructor
  · have r0 : retryableResp (u 0) = true := by rw [h0]; rfl
    have r1 : retryableResp (u 1) = true := by rw [h1]; rfl
    obtain ⟨hs0, hr0⟩ := stepError_of_retryable r0
    obtain ⟨hs1, hr1⟩ := stepError_of_retryable r1
    have hn5 : ¬ 500 ≤ st := by omega
    have hn4 : ¬ 400 ≤ st := by omega
    have hs2 : attemptStep (u 2) = Sum.inl body := by
      simp [h2, attemptStep, hn5, hn4]
    simp [proxyToDeadAnime, maxRetries, proxyGo, hs0, hr0, hs1, hr1, hs2]
  · intro v
    exact (proxyTrace_shape v).2.2

theorem c4_backoff_delays_witness :
    proxyToDeadAnime
        (fun i => if i < 2 then UpstreamResp.http 503 "down" else UpstreamResp.http 200 "body")
      = { attempts := 3, delays := [1000, 2000], result := ProxyResult.ok "body" }
    ∧ ∀ v : Nat → UpstreamResp,
        (proxyToDeadAnime v).delays
          = (List.range ((proxyToDeadAnime v).attempts - 1)).map (fun i => 1000 * 2 ^ i) :=
  c4_backoff_delays
    (fun i => if i < 2 then UpstreamResp.http 503 "down" else UpstreamResp.http 200 "body")
    "down" "down" "body" 200 rfl rfl rfl (by decide)

/-- C5: the TLS-verification decision is computed once, from `NODE_ENV` as
it is at module load, and is the decision in force at every later
connection setup: a process loaded under `production` still verifies for a
connection made while the environment says `development`, and vice
versa — the opposite of a decision re-read at call/connection time. -/
theorem c5_tls_decision_fixed_at_load :
    connectionRejectUnauthorized "production" "development" = true
    ∧ connectionRejectUnauthorized "development" "production" = false
    ∧ agentRejectUnauthorized "development" = false := by
  decide

/-- C6 counterexample: the 400 missing-parameter response of
`GET /api/deadanime/anime` carries a body whose only field is `error`:
`message` and `timestamp` are absent, refuting the claim for these error
responses. -/
theorem c6_missing_param_body_lacks_fields :
    animeHandler [] (fun _ => UpstreamResp.http 200 "ok")
      = { status := 400, body := RespBody.envelope missingParamBody, upstreamAttempts := 0 }
    ∧ "message" ∉ missingParamBody
    ∧ "timestamp" ∉ missingParamBody := by
  decide

/-- C6 (amended): route catch-block error responses and the global error
handler carry `error`, `message` and `timestamp`, with `stack` in the
global handler exactly in a development configuration; the 400
missing-parameter responses carry only `error`; the 404 body carries
`error`, `path`, `method`, `timestamp`; the stats catch body carries
`error` and `message`; on success the upstream body is passed through
unmodified with status 200. -/
theorem c6_error_envelope (dev : Bool) (q q' : List (String × String))
    (u u' : Nat → UpstreamResp) (body : String) (e : JsError)
    (hs : truthy (jsGet q "slug") = true)
    (hok : (proxyToDeadAnime u).result = ProxyResult.ok body)
    (hs' : truthy (jsGet q' "slug") = true)
    (herr : (proxyToDeadAnime u').result = ProxyResult.err e) :
    routeErrorBody = ["error", "message", "timestamp"]
    ∧ ("error" ∈ globalErrorBody dev ∧ "message" ∈ globalErrorBody dev
        ∧ "timestamp" ∈ globalErrorBody dev ∧ ("stack" ∈ globalErrorBody dev ↔ dev = true))
    ∧ missingParamBody = ["error"]
    ∧ notFoundBody = ["error", "path", "method", "timestamp"]
    ∧ statsErrorBody = ["error", "message"]
    ∧ animeHandler q u = { status := 200, body := RespBody.upstream body
                           upstreamAttempts := (proxyToDeadAnime u).attempts }
    ∧ (animeHandler q' u').body = RespBody.envelope routeErrorBody := by
  refine ⟨rfl, ?_, rfl, rfl, rfl, ?_, ?_⟩
  · cases dev <;> simp [globalErrorBody]
  · simp [animeHandler, hs, routeRespond, hok]
  · simp [animeHandler, hs', routeRespond, herr]

theorem c6_error_envelope_witness :
    routeErrorBody = ["error", "message", "timestamp"]
    ∧ ("error" ∈ globalErrorBody true ∧ "message" ∈ globalErrorBody true
        ∧ "timestamp" ∈ globalErrorBody true ∧ ("stack" ∈ globalErrorBody true ↔ true = true))
    ∧ missingParamBody = ["error"]
    ∧ notFoundBody = ["error", "path", "method", "timestamp"]
    ∧ statsErrorBody = ["error", "message"]
    ∧ animeHandler [("slug", "naruto")] (fun _ => UpstreamResp.http 200 "ok")
        = { status := 200, body := RespBody.upstream "ok"
            upstreamAttempts :=
              (proxyToDeadAnime (fun _ => UpstreamResp.http 200 "ok")).attempts }
    ∧ (animeHandler [("slug", "naruto")] (fun _ => UpstreamResp.http 404 "nf")).body
        = RespBody.envelope routeErrorBody :=
  c6_error_envelope true [("slug", "naruto")] [("slug", "naruto")]
    (fun _ => UpstreamResp.http 200 "ok") (fun _ => UpstreamResp.http 404 "nf") "ok"
    { message := "Upstream API returned " ++ toString 404, response := some (404, "nf") }
    (by decide) (by decide) (by decide) (by decide)

/-- C7: on each route with a required parameter, a request lacking that
parameter gets HTTP 400 and triggers zero upstream attempts. -/
theorem c7_missing_required_param_400 (q1 q2 q3 q4 : List (String × String))
    (u : Nat → UpstreamResp)
    (h1 : jsGet q1 "slug" = none) (h2 : jsGet q2 "slug" = none)
    (h3 : jsGet q3 "slug" = none) (h4 : jsGet q4 "season_id" = none) :
    animeHandler q1 u
      = { status := 400, body := RespBody.envelope missingParamBody, upstreamAttempts := 0 }
    ∧ episodeHandler q2 u
      = { status := 400, body := RespBody.envelope missingParamBody, upstreamAttempts := 0 }
    ∧ movieHandler q3 u
      = { status := 400, body := RespBody.envelope missingParamBody, upstreamAttempts := 0 }
    ∧ packHandler q4 u
      = { status := 400, body := RespBody.envelope missingParamBody, upstreamAttempts := 0 } := by
  refine ⟨?_, ?_, ?_, ?_⟩ <;>
    simp [animeHandler, episodeHandler, movieHandler, packHandler, h1, h2, h3, h4, truthy]

theorem c7_missing_required_param_400_witness :
    animeHandler [] (fun _ => UpstreamResp.http 200 "ok")
      = { status := 400, body := RespBody.envelope missingParamBody, upstreamAttempts := 0 }
    ∧ episodeHandler [] (fun _ => UpstreamResp.http 200 "ok")
      = { status := 400, body := RespBody.envelope missingParamBody, upstreamAttempts := 0 }
    ∧ movieHandler [] (fun _ => UpstreamResp.http 200 "ok")
      = { status := 400, body := RespBody.envelope missingParamBody, upstreamAttempts := 0 }
    ∧ packHandler [] (fun _ => UpstreamResp.http 200 "ok")
      = { status := 400, body := RespBody.envelope missingParamBody, upstreamAttempts := 0 } :=
  c7_missing_required_param_400 [] [] [] [] (fun _ => UpstreamResp.http 200 "ok")
    rfl rfl rfl rfl

/-- C8 counterexample: for the input `search = " "` (whitespace only,
truthy, trims to the empty string) the sanitized output still contains a
`search` key, and its value is the empty string — refuting both "the value
is non-empty" and "empty after trimming yields no search key". -/
theorem c8_whitespace_search_not_omitted :
    sGet (sanitizeParams [("search", " ")]) "search" = some (SValue.str "") := by
  decide

/-- C8 (amended): the sanitized output has a `search` key exactly when the
raw `search` value is present and non-empty (JavaScript-truthy); its value
is then the raw string trimmed and truncated to at most 200 characters,
which is the empty string when the raw value was whitespace-only (the key
is not omitted in that case). -/
theorem c8_search_trim_truncate (params : List (String × String)) :
    sGet (sanitizeParams params) "search" =
      (match jsGet params "search" with
        | none => none
        | some s => if s = "" then none else some (SValue.str (jsSlice (jsTrim s) 200)))
    ∧ ∀ s : String, (jsSlice (jsTrim s) 200).length ≤ 200 := by
  refine ⟨sGet_sanitizeParams_search params, ?_⟩
  intro s
  show ((jsTrim s).data.take 200).length ≤ 200
  rw [List.length_take]
  omega

/-- C9: a recognized key absent from the input mapping is absent from the
sanitized output; no default is injected for it. -/
theorem c9_absent_in_absent_out (params : List (String × String)) (k : String)
    (_hk : k ∈ recognizedKeys) (habs : jsGet params k = none) :
    sGet (sanitizeParams params) k = none := by
  have hnone : (sanitizeParams params).find? (fun p => p.1 = k) = none := by
    rw [List.find?_eq_none]
    intro p hp hpk
    have ht := (mem_sanitizeParams hp).2
    rw [show p.1 = k from by simpa using hpk, habs] at ht
    simp [truthy] at ht
  simp [sGet, hnone]

theorem c9_absent_in_absent_out_witness :
    sGet (sanitizeParams []) "limit" = none :=
  c9_absent_in_absent_out [] "limit" (by decide) rfl

/-- C10: every key of the sanitized output, and hence every key of the
parameter set that survives `proxyToDeadAnime`'s empty-value filter and is
forwarded in the upstream URL, belongs to the fixed recognized set —
unrecognized inbound query parameters are never forwarded. -/
theorem c10_only_recognized_keys_forwarded (params : List (String × String))
    (p q : String × SValue)
    (hp : p ∈ sanitizeParams params)
    (hq : q ∈ cleanParams (sanitizeParams params)) :
    p.1 ∈ recognizedKeys ∧ q.1 ∈ recognizedKeys :=
  ⟨(mem_sanitizeParams hp).1, (mem_sanitizeParams (List.mem_of_mem_filter hq)).1⟩

theorem c10_only_recognized_keys_forwarded_witness :
    ("limit", SValue.num 5).1 ∈ recognizedKeys ∧ ("limit", SValue.num 5).1 ∈ recognizedKeys :=
  c10_only_recognized_keys_forwarded [("limit", "5")] ("limit", SValue.num 5)
    ("limit", SValue.num 5) (by decide) (by decide)

end AnimeBackend
